import Mathlib

/-!
# Verification of the tcmirs pipeline

Shallow embedding of the tcmirs package (track loading, granule matching,
granule merging, output assembly) together with proofs of its specified
properties.

Modelling conventions:
* Timestamps are seconds since the Unix epoch (UTC), as `Int`; `pandas`
  timestamp ordering and timedelta arithmetic coincide with `Int` ordering
  and addition under this encoding.  `toEpoch` converts a calendar date to
  that encoding (civil-calendar day count), so that concrete dates such as
  2021-12-31T23:59:59 can be written down.
* Latitudes and longitudes are `Rat` (exact rationals in place of IEEE
  floats; the float operations used by the code — comparison, `%` with a
  positive divisor, min/max — are exact on the data ranges involved).
* A granule's point-in-polygon test (`shapely`'s `point.within`) is an
  external collaborator; it is carried as a boolean-valued field of the
  granule, applied to (lon, lat).
* File I/O is modelled by passing the directory contents as data.
-/

namespace Tcmirs

/-- Days since 1970-01-01 of the civil date `(y, m, d)` (standard
era-based civil-calendar algorithm). -/
def daysFromCivil (y m d : Int) : Int :=
  let y2 := if m ≤ 2 then y - 1 else y
  let era := (if 0 ≤ y2 then y2 else y2 - 399) / 400
  let yoe := y2 - era * 400
  let mp := if 2 < m then m - 3 else m + 9
  let doy := (153 * mp + 2) / 5 + d - 1
  let doe := yoe * 365 + yoe / 4 - yoe / 100 + doy
  era * 146097 + doe - 719468

/-- Seconds since the Unix epoch of the UTC instant `y-mo-d h:mi:s`. -/
def toEpoch (y mo d h mi s : Int) : Int :=
  86400 * daysFromCivil y mo d + 3600 * h + 60 * mi + s

/-- Model of `pd.to_datetime(str(year))`: midnight UTC on January 1 of `year`. -/
def yearStart (year : Int) : Int := toEpoch year 1 1 0 0 0

/-- Python's float `%` with divisor `b`: `a - b * floor(a / b)`. -/
def ratMod (a b : Rat) : Rat := a - b * (⌊a / b⌋ : Int)

/-- Embedding of `ibtracs._lon_to_360`: convert a longitude from -180/180 to 0-360
degrees via `(360 + (dlon % 360)) % 360`. -/
def lon_to_360 (dlon : Rat) : Rat := ratMod (360 + ratMod dlon 360) 360

/-- One data row of the IBTrACS CSV, restricted to the columns the pipeline
reads.  The further `IBTRACS_EXTRACT_VARS` columns (quadrant radii) are
carried through the code unchanged and never inspected, so they are not
modelled.  `ISO_TIME` is already in epoch seconds (CSV parsing is external). -/
structure CsvRow where
  NAME : String
  ISO_TIME : Int
  WMO_WIND : String
  WMO_PRES : String
  LAT : Rat
  LON : Rat
deriving Repr, DecidableEq

/-- A row of the DataFrame returned by `get_storm_track`: the CSV columns
plus the derived `LON_180` column (original signed longitude), with `LON`
converted to 0-360 degrees. -/
structure TrackRow where
  NAME : String
  ISO_TIME : Int
  WMO_WIND : String
  WMO_PRES : String
  LAT : Rat
  LON : Rat
  LON_180 : Rat
deriving Repr, DecidableEq

/-- The final per-row transformation of `get_storm_track`:
`data["LON_180"] = data["LON"]; data["LON"] = data["LON"].apply(_lon_to_360)`. -/
def track_transform_row (r : CsvRow) : TrackRow :=
  { NAME := r.NAME, ISO_TIME := r.ISO_TIME, WMO_WIND := r.WMO_WIND,
    WMO_PRES := r.WMO_PRES, LAT := r.LAT,
    LON := lon_to_360 r.LON, LON_180 := r.LON }

/-- Embedding of `ibtracs.get_storm_track`: drop the units row, keep rows whose `NAME`
equals `name` and whose `ISO_TIME` lies in `[year-01-01, (year+1)-01-01)`,
optionally drop rows with blank (`" "`) WMO wind/pressure, then add the
normalized-longitude column. -/
def get_storm_track (name : String) (year : Int) (csv : List CsvRow)
    (filter_missing_wmo : Bool := true) : List TrackRow :=
  let data := csv.drop 1
  let data := data.filter (fun r => r.NAME == name)
  let data := data.filter
    (fun r => decide (yearStart year ≤ r.ISO_TIME ∧ r.ISO_TIME < yearStart (year + 1)))
  let data :=
    if filter_missing_wmo then
      (data.filter (fun r => !(r.WMO_WIND == " "))).filter (fun r => !(r.WMO_PRES == " "))
    else data
  data.map track_transform_row

/-! ## Granule matching (`mirs.py`) -/

/-- The metadata of an open MIRS granule dataset that
`_granule_overlaps_track_point` reads: the declared time-coverage interval
(epoch seconds), the first-scanline first-FOV longitude, and the
`geospatial_bounds` polygon, the latter abstracted as its `shapely`
point-in-polygon test applied to `(lon, lat)`. -/
structure Granule where
  time_coverage_start : Int
  time_coverage_end : Int
  first_fov_lon : Rat
  bounds_contains : Rat → Rat → Bool

/-- Embedding of `mirs._granule_overlaps_track_point`: true iff the track-point window
`[t_behind, t_ahead]` fully contains the granule's coverage interval,
the optional dateline filter passes, and the track point lies within the
granule's bounding polygon. -/
def granule_overlaps_track_point (ds : Granule) (lat lon_180 : Rat)
    (t_behind t_ahead : Int) (require_east_of_dateline : Bool := true) : Bool :=
  if !(decide (t_behind ≤ ds.time_coverage_start) && decide (t_ahead ≥ ds.time_coverage_end))
  then false
  else if require_east_of_dateline && decide (ds.first_fov_lon ≥ 0) then false
  else ds.bounds_contains lon_180 lat

/-- Embedding of `config.TIME_WINDOW_HOURS`. -/
def TIME_WINDOW_HOURS : Int := 12

/-- Model of Python's `str.startswith`: the pattern's character sequence
heads the string's. -/
def strStartsWith (s pat : String) : Bool := pat.data.isPrefixOf s.data

/-- Model of Python's `str.endswith`: the pattern's character sequence
ends the string's. -/
def strEndsWith (s pat : String) : Bool := pat.data.isSuffixOf s.data

/-- Model of Python `set.add`: insert a filename unless already present
(the eventual output is sorted, so insertion position is immaterial). -/
def set_insert (x : String) (s : List String) : List String :=
  if x ∈ s then s else x :: s

/-- Lexicographic (code-point) order on filenames, the order Python's
`sorted` uses for strings; it coincides with `String`'s linear order. -/
def file_lex_le (a b : String) : Prop := a.data ≤ b.data

instance : DecidableRel file_lex_le :=
  fun a b => (inferInstance : Decidable (a.data ≤ b.data))

instance : IsTotal String file_lex_le := ⟨fun a b => le_total a.data b.data⟩

instance : IsTrans String file_lex_le := ⟨fun _ _ _ hab hbc => le_trans hab hbc⟩

/-- The matched-filename set accumulated by `find_mirs_files`: for each
processed track index, every `.nc` directory entry whose granule overlaps
that track point is inserted.  (An out-of-range caller-supplied index,
which would raise in Python, contributes nothing here.) -/
def mirs_matched_set (track : List TrackRow) (mirs_files : List (String × Granule))
    (time_window_hours : Int) (require_east_of_dateline : Bool)
    (indices : List Nat) : List String :=
  indices.foldl
    (fun acc ipt =>
      match track[ipt]? with
      | none => acc
      | some row =>
        let t_ahead := row.ISO_TIME + time_window_hours * 3600
        let t_behind := row.ISO_TIME - time_window_hours * 3600
        mirs_files.foldl
          (fun acc2 fg =>
            if !(strEndsWith fg.1 ".nc") then acc2
            else if granule_overlaps_track_point fg.2 row.LAT row.LON_180
                      t_behind t_ahead require_east_of_dateline
            then set_insert fg.1 acc2
            else acc2)
          acc)
    []

/-- Embedding of `mirs.find_mirs_files`: scan the directory (given as filename/granule
pairs) once per processed track point, accumulate matching `.nc` filenames
into one deduplicated set, and return the set split by filename prefix
into sorted IMG and SND lists. -/
def find_mirs_files (track : List TrackRow) (mirs_files : List (String × Granule))
    (time_window_hours : Int := TIME_WINDOW_HOURS)
    (require_east_of_dateline : Bool := true)
    (track_indices : Option (List Nat) := none) : List String × List String :=
  let indices := track_indices.getD (List.range track.length)
  let matched := mirs_matched_set track mirs_files time_window_hours
    require_east_of_dateline indices
  let img_files :=
    List.insertionSort file_lex_le (matched.filter (fun f => strStartsWith f "NPR-MIRS-IMG"))
  let snd_files :=
    List.insertionSort file_lex_le (matched.filter (fun f => strStartsWith f "NPR-MIRS-SND"))
  (img_files, snd_files)

/-! ## Granule merging (`mirs.load_and_merge_mirs`) -/

/-- An xarray Dataset, abstracted to its data variables: an association of
variable name to the data values along the `Scanline` dimension. -/
def Dataset := List (String × List Int)

/-- The values of variable `name` in a dataset (empty when absent). -/
def ds_lookup (ds : Dataset) (name : String) : List Int :=
  match ds.find? (fun p => p.1 == name) with
  | some p => p.2
  | none => []

/-- Model of `xr.concat(dss, dim="Scanline")`: take the variables of the first
dataset and concatenate every dataset's values for each. -/
def ds_concat (dss : List Dataset) : Dataset :=
  match dss with
  | [] => []
  | d :: _ => d.map (fun p => (p.1, dss.flatMap (fun ds => ds_lookup ds p.1)))

/-- Model of `.drop_vars(names, errors="ignore")`. -/
def ds_drop_vars (ds : Dataset) (names : List String) : Dataset :=
  ds.filter (fun p => !(names.contains p.1))

/-- Model of `ds[names]`: restrict to the named variables. -/
def ds_select (ds : Dataset) (names : List String) : Dataset :=
  ds.filter (fun p => names.contains p.1)

/-- Embedding of `config.SND_VARS_TO_KEEP`. -/
def SND_VARS_TO_KEEP : List String :=
  ["Player", "Plevel", "PTemp", "PVapor", "PClw", "PRain", "PGraupel"]

/-- Embedding of `config.IMG_VARS_TO_REMOVE`. -/
def IMG_VARS_TO_REMOVE : List String :=
  ["Atm_type", "ChanSel", "SWP", "IWP", "Snow",
   "SWE", "SnowGS", "SIce", "SIce_MY", "SIce_FY", "SFR",
   "CldTop", "CldBase", "CldThick", "PrecipType", "RFlag", "SurfM",
   "WindSp", "WindDir", "WindU", "WindV", "Prob_SF", "quality_information"]

/-- Embedding of `mirs.load_and_merge_mirs`: raise `ValueError` when either filename
list is empty; otherwise open each file (the directory is given as a total
map from filename to dataset), concatenate IMG granules along `Scanline`
dropping the deny-list, and concatenate SND granules keeping the
allow-list. -/
def load_and_merge_mirs (img_files snd_files : List String)
    (mirs_dir : String → Dataset)
    (snd_vars_to_keep : List String := SND_VARS_TO_KEEP)
    (img_vars_to_remove : List String := IMG_VARS_TO_REMOVE) :
    Except String (Dataset × Dataset) :=
  if img_files.isEmpty then .error "No MIRS IMG files provided."
  else if snd_files.isEmpty then .error "No MIRS SND files provided."
  else
    let ds_img := ds_drop_vars (ds_concat (img_files.map mirs_dir)) img_vars_to_remove
    let ds_snd := ds_select (ds_concat (snd_files.map mirs_dir)) snd_vars_to_keep
    .ok (ds_img, ds_snd)

/-! ## Output assembly (`output.py`) -/

/-- One storm of the IBTrACS netCDF dataset (`ds_ibt`): its name, season
(year), and its per-record iso_time strings, latitudes and longitudes
along the date_time dimension (actual records only; trailing NaN padding
is skipped by xarray's min/max and never indexed at position 0). -/
structure IbtracsStorm where
  name : String
  season : Int
  iso_time : List String
  lat : List Rat
  lon : List Rat
deriving Repr, DecidableEq

/-- Python `round(x, 2)`: round to 2 decimal places (ties on the exact
rational are modelled by Mathlib's `round`; the spec fixes no tie rule). -/
def round2 (q : Rat) : Rat := (round (q * 100) : Int) / 100

/-- The result of `output.build_output_dataset`: the merged data together
with the global TC metadata attributes. -/
structure OutputDataset where
  img : Dataset
  snd : Dataset
  storms : List IbtracsStorm
  TC_name : String
  TC_time_start : String
  TC_minimum_lat : Rat
  TC_minimum_lon : Rat
  TC_maximum_lat : Rat
  TC_maximum_lon : Rat

/-- Embedding of `output.build_output_dataset`: select the storms whose name and season
match, merge with the granule data, and attach the metadata attributes.
`ds_storm["iso_time"][:, 0].item()` requires exactly one selected storm
(otherwise `.item()` raises, modelled as `none`), and indexing/min/max of
empty record arrays likewise fail. -/
def build_output_dataset (ds_img ds_snd : Dataset) (ds_ibt : List IbtracsStorm)
    (storm_name : String) (storm_year : Int) : Option OutputDataset :=
  let ds_storm :=
    (ds_ibt.filter (fun s => s.name == storm_name)).filter
      (fun s => s.season == storm_year)
  match ds_storm with
  | [storm] =>
    match storm.iso_time.head?, storm.lat.min?, storm.lon.min?,
          storm.lat.max?, storm.lon.max? with
    | some t0, some lat_min, some lon_min, some lat_max, some lon_max =>
      some { img := ds_img, snd := ds_snd, storms := [storm],
             TC_name := storm_name,
             TC_time_start := t0,
             TC_minimum_lat := round2 lat_min,
             TC_minimum_lon := round2 lon_min,
             TC_maximum_lat := round2 lat_max,
             TC_maximum_lon := round2 lon_max }
    | _, _, _, _, _ => none
  | _ => none

/-! ## Command-line entry point (`cli.py`) -/

/-- The parsed command-line arguments `main` consults for track loading;
`argparse` gives `filter_missing_wmo` the default `True`
(`BooleanOptionalAction` with `default=True`). -/
structure CliArgs where
  name : String
  year : Int
  filter_missing_wmo : Bool := true
deriving Repr, DecidableEq

/-- Value of `cli.main`'s effective WMO filter:
`filter_wmo = args.filter_missing_wmo and args.year != 2021`. -/
def main_filter_wmo (args : CliArgs) : Bool :=
  args.filter_missing_wmo && !(args.year == 2021)

/-- The track-loading step of `cli.main`: uppercase the storm name and call
`get_storm_track` with the effective WMO filter. -/
def main_track (args : CliArgs) (csv : List CsvRow) : List TrackRow :=
  get_storm_track args.name.toUpper args.year csv (main_filter_wmo args)

/-- Concrete IBTrACS storm fixture used by witness instantiations. -/
def stormW : IbtracsStorm :=
  ⟨"IDA", 2021, ["2021-08-26 12:00:00"], [16, 17], [-78, -79]⟩

/-- The output `build_output_dataset` produces on `stormW` with empty
granule data; fixture used by witness instantiations. -/
def outW : OutputDataset :=
  { img := [], snd := [], storms := [stormW], TC_name := "IDA",
    TC_time_start := "2021-08-26 12:00:00",
    TC_minimum_lat := round2 16, TC_minimum_lon := round2 (-79),
    TC_maximum_lat := round2 17, TC_maximum_lon := round2 (-78) }

/-! ## Helper lemmas -/

lemma ratMod_eq_mul_fract (a b : Rat) (hb : b ≠ 0) :
    ratMod a b = b * Int.fract (a / b) := by
  unfold ratMod Int.fract
  field_simp

lemma ratMod_nonneg (a b : Rat) (hb : 0 < b) : 0 ≤ ratMod a b := by
  rw [ratMod_eq_mul_fract a b hb.ne']
  exact mul_nonneg hb.le (Int.fract_nonneg _)

lemma ratMod_lt (a b : Rat) (hb : 0 < b) : ratMod a b < b := by
  rw [ratMod_eq_mul_fract a b hb.ne']
  calc b * Int.fract (a / b) < b * 1 :=
        mul_lt_mul_of_pos_left (Int.fract_lt_one _) hb
    _ = b := mul_one b

lemma lon_to_360_eq_ratMod (L : Rat) : lon_to_360 L = ratMod L 360 := by
  have h0 : (0 : Rat) < 360 := by norm_num
  have hm0 : 0 ≤ ratMod L 360 := ratMod_nonneg _ _ h0
  have hm1 : ratMod L 360 < 360 := ratMod_lt _ _ h0
  show ratMod (360 + ratMod L 360) 360 = ratMod L 360
  set m := ratMod L 360 with hm
  have hdiv : (360 + m) / 360 = m / 360 + 1 := by
    field_simp
    ring
  have hfloor : ⌊(360 + m) / 360⌋ = 1 := by
    rw [hdiv, Int.floor_add_one, Int.floor_eq_zero_iff.mpr, zero_add]
    constructor
    · exact div_nonneg hm0 h0.le
    · exact (div_lt_one h0).mpr hm1
  unfold ratMod
  rw [hfloor]
  push_cast
  ring

lemma granule_overlaps_iff (g : Granule) (lat lon_180 : Rat)
    (t_behind t_ahead : Int) (req : Bool) :
    granule_overlaps_track_point g lat lon_180 t_behind t_ahead req = true ↔
      (t_behind ≤ g.time_coverage_start ∧ g.time_coverage_end ≤ t_ahead) ∧
      (req = true → g.first_fov_lon < 0) ∧
      g.bounds_contains lon_180 lat = true := by
  unfold granule_overlaps_track_point
  by_cases hs : t_behind ≤ g.time_coverage_start <;>
    by_cases he : g.time_coverage_end ≤ t_ahead <;>
      by_cases hl : (0 : Rat) ≤ g.first_fov_lon <;>
        cases req <;>
          simp [hs, he, hl, ge_iff_le, not_le.mp, lt_of_not_le]

lemma set_insert_nodup (x : String) (s : List String) (h : s.Nodup) :
    (set_insert x s).Nodup := by
  unfold set_insert
  split
  · exact h
  · exact List.nodup_cons.mpr ⟨by assumption, h⟩

lemma foldl_preserves_nodup {α : Type} (f : List String → α → List String)
    (hf : ∀ acc x, acc.Nodup → (f acc x).Nodup) (l : List α) (acc : List String)
    (h : acc.Nodup) : (l.foldl f acc).Nodup := by
  induction l generalizing acc with
  | nil => exact h
  | cons x xs ih => exact ih _ (hf _ _ h)

lemma mirs_matched_set_nodup (track : List TrackRow)
    (dir : List (String × Granule)) (W : Int) (req : Bool) (idxs : List Nat) :
    (mirs_matched_set track dir W req idxs).Nodup := by
  unfold mirs_matched_set
  apply foldl_preserves_nodup
  · intro acc ipt h
    cases htrack : track[ipt]? with
    | none => simpa [htrack] using h
    | some row =>
      simp only [htrack]
      apply foldl_preserves_nodup
      · intro acc2 fg h2
        split
        · exact h2
        · split
          · exact set_insert_nodup _ _ h2
          · exact h2
      · exact h
  · exact List.nodup_nil

/-! ## Claim theorems -/

/-- C7: for every signed longitude `L`, the normalization
`(360 + (L mod 360)) mod 360` computed by `_lon_to_360` lies in `[0, 360)`
and is congruent to `L` modulo 360. -/
theorem lon_to_360_in_range_congruent (L : Rat) :
    0 ≤ lon_to_360 L ∧ lon_to_360 L < 360 ∧
      ∃ k : Int, lon_to_360 L = L + 360 * k := by
  have h0 : (0 : Rat) < 360 := by norm_num
  refine ⟨?_, ?_, -⌊L / 360⌋, ?_⟩
  · rw [lon_to_360_eq_ratMod]
    exact ratMod_nonneg _ _ h0
  · rw [lon_to_360_eq_ratMod]
    exact ratMod_lt _ _ h0
  · rw [lon_to_360_eq_ratMod]
    unfold ratMod
    push_cast
    ring

/-- C1: with the window `[t - W·3600, t + W·3600]` that `find_mirs_files`
builds around a track point's timestamp `t` (W in hours),
`_granule_overlaps_track_point` returns true only if the window fully
contains the granule's declared coverage interval; a granule whose
coverage extends past either bound, even by one second, never matches. -/
theorem granule_time_containment (g : Granule) (lat lon_180 : Rat)
    (t W : Int) (req : Bool) :
    (granule_overlaps_track_point g lat lon_180 (t - W * 3600) (t + W * 3600) req = true →
      t - W * 3600 ≤ g.time_coverage_start ∧ g.time_coverage_end ≤ t + W * 3600) ∧
    (t + W * 3600 < g.time_coverage_end →
      granule_overlaps_track_point g lat lon_180 (t - W * 3600) (t + W * 3600) req = false) ∧
    (g.time_coverage_start < t - W * 3600 →
      granule_overlaps_track_point g lat lon_180 (t - W * 3600) (t + W * 3600) req = false) := by
  refine ⟨fun h => ((granule_overlaps_iff g lat lon_180 _ _ req).mp h).1, ?_, ?_⟩
  · intro he
    rw [← Bool.not_eq_true, granule_overlaps_iff]
    rintro ⟨⟨-, h2⟩, -, -⟩
    omega
  · intro hs
    rw [← Bool.not_eq_true, granule_overlaps_iff]
    rintro ⟨⟨h1, -⟩, -, -⟩
    omega

/-- Witness for C1: a granule whose coverage ends one second after the
widened window (end = 43201 against window `[-43200, 43200]` around
`t = 0`, `W = 12`) does not match, and a contained granule's match implies
the containment bounds. -/
theorem granule_time_containment_witness :
    granule_overlaps_track_point ⟨0, 43201, -80, fun _ _ => true⟩ 10 (-50)
        (0 - 12 * 3600) (0 + 12 * 3600) true = false ∧
      ((0 : Int) - 12 * 3600 ≤ 0 ∧ (43199 : Int) ≤ 0 + 12 * 3600) :=
  ⟨(granule_time_containment ⟨0, 43201, -80, fun _ _ => true⟩ 10 (-50) 0 12 true).2.1
      (by norm_num),
   (granule_time_containment ⟨0, 43199, -80, fun _ _ => true⟩ 10 (-50) 0 12 true).1
      (by decide)⟩

/-- C6: with the dateline-exclusion option enabled, every granule whose
first-scan longitude is ≥ 0 is rejected regardless of its time and spatial
overlap; with the option disabled, such a granule is accepted whenever the
time-containment and point-in-polygon conditions hold. -/
theorem dateline_filter_effect (g : Granule) (lat lon_180 : Rat)
    (t_behind t_ahead : Int) :
    (0 ≤ g.first_fov_lon →
      granule_overlaps_track_point g lat lon_180 t_behind t_ahead true = false) ∧
    (t_behind ≤ g.time_coverage_start → g.time_coverage_end ≤ t_ahead →
      g.bounds_contains lon_180 lat = true →
      granule_overlaps_track_point g lat lon_180 t_behind t_ahead false = true) := by
  constructor
  · intro hl
    rw [← Bool.not_eq_true, granule_overlaps_iff]
    rintro ⟨-, hreq, -⟩
    exact absurd (hreq rfl) (not_lt.mpr hl)
  · intro h1 h2 h3
    rw [granule_overlaps_iff]
    exact ⟨⟨h1, h2⟩, fun h => absurd h (by simp), h3⟩

/-- Witness for C6: a granule with first-scan longitude 5.0 that passes
the time and spatial tests is excluded when the option is enabled and
included when it is disabled. -/
theorem dateline_filter_effect_witness :
    granule_overlaps_track_point ⟨0, 10, 5, fun _ _ => true⟩ 10 (-50) (-100) 100 true
        = false ∧
      granule_overlaps_track_point ⟨0, 10, 5, fun _ _ => true⟩ 10 (-50) (-100) 100 false
        = true :=
  ⟨(dateline_filter_effect ⟨0, 10, 5, fun _ _ => true⟩ 10 (-50) (-100) 100).1
      (by norm_num),
   (dateline_filter_effect ⟨0, 10, 5, fun _ _ => true⟩ 10 (-50) (-100) 100).2
      (by norm_num) (by norm_num) rfl⟩

/-- C2: `load_and_merge_mirs` signals an error whenever either filename
list is empty and no merged pair is produced; whenever both lists are
non-empty the emptiness checks pass and a merged pair is returned. -/
theorem load_and_merge_mirs_empty_behavior (img_files snd_files : List String)
    (mirs_dir : String → Dataset) (keep rem : List String) :
    ((img_files = [] ∨ snd_files = []) →
      ∃ e, load_and_merge_mirs img_files snd_files mirs_dir keep rem = .error e) ∧
    (img_files ≠ [] → snd_files ≠ [] →
      ∃ p, load_and_merge_mirs img_files snd_files mirs_dir keep rem = .ok p) := by
  unfold load_and_merge_mirs
  constructor
  · rintro (rfl | rfl)
    · exact ⟨_, rfl⟩
    · rcases img_files with - | ⟨a, l⟩
      · exact ⟨_, rfl⟩
      · exact ⟨_, rfl⟩
  · intro h1 h2
    rw [if_neg (by simpa using h1), if_neg (by simpa using h2)]
    exact ⟨_, rfl⟩

/-- Witness for C2: an empty imagery list yields an error; two singleton
lists yield a merged pair. -/
theorem load_and_merge_mirs_empty_behavior_witness :
    (∃ e, load_and_merge_mirs [] ["f.nc"] (fun _ => ([] : Dataset))
        SND_VARS_TO_KEEP IMG_VARS_TO_REMOVE = .error e) ∧
      (∃ p, load_and_merge_mirs ["f.nc"] ["g.nc"] (fun _ => ([] : Dataset))
        SND_VARS_TO_KEEP IMG_VARS_TO_REMOVE = .ok p) :=
  ⟨(load_and_merge_mirs_empty_behavior [] ["f.nc"] (fun _ => ([] : Dataset))
      SND_VARS_TO_KEEP IMG_VARS_TO_REMOVE).1 (Or.inl rfl),
   (load_and_merge_mirs_empty_behavior ["f.nc"] ["g.nc"] (fun _ => ([] : Dataset))
      SND_VARS_TO_KEEP IMG_VARS_TO_REMOVE).2 (by simp) (by simp)⟩

/-- C4: with the missing-field filter off, `get_storm_track` keeps exactly
the (unit-row-stripped) rows whose `NAME` equals the given storm name and
whose timestamp lies in `[year-01-01, (year+1)-01-01)`; moreover
2021-12-31T23:59:59 satisfies the year-2021 bounds while
2022-01-01T00:00:00 fails the strict upper bound. -/
theorem get_storm_track_filters_exactly (name : String) (year : Int)
    (csv : List CsvRow) :
    get_storm_track name year csv false =
      ((csv.drop 1).filter (fun r =>
          r.NAME == name &&
            decide (yearStart year ≤ r.ISO_TIME ∧ r.ISO_TIME < yearStart (year + 1)))).map
        track_transform_row ∧
    (yearStart 2021 ≤ toEpoch 2021 12 31 23 59 59 ∧
      toEpoch 2021 12 31 23 59 59 < yearStart 2022) ∧
    yearStart 2022 ≤ toEpoch 2022 1 1 0 0 0 := by
  refine ⟨?_, by decide, by decide⟩
  show (((csv.drop 1).filter (fun r => r.NAME == name)).filter
      (fun r => decide (yearStart year ≤ r.ISO_TIME ∧ r.ISO_TIME < yearStart (year + 1)))).map
      track_transform_row = _
  rw [List.filter_filter]
  have harg :
      (fun r : CsvRow =>
          decide (yearStart year ≤ r.ISO_TIME ∧ r.ISO_TIME < yearStart (year + 1)) &&
            (r.NAME == name)) =
        (fun r : CsvRow =>
          r.NAME == name &&
            decide (yearStart year ≤ r.ISO_TIME ∧ r.ISO_TIME < yearStart (year + 1))) :=
    funext fun r => Bool.and_comm _ _
  rw [harg]

/-- C5: with the missing-field filter enabled, every row of the result has
non-blank WMO wind and pressure fields; with it disabled, every
unit-row-stripped row passing the name and year filters is retained,
whatever its WMO fields. -/
theorem get_storm_track_wmo_filter (name : String) (year : Int)
    (csv : List CsvRow) :
    (∀ r ∈ get_storm_track name year csv true,
      r.WMO_WIND ≠ " " ∧ r.WMO_PRES ≠ " ") ∧
    (∀ r ∈ csv.drop 1, r.NAME = name →
      yearStart year ≤ r.ISO_TIME → r.ISO_TIME < yearStart (year + 1) →
      track_transform_row r ∈ get_storm_track name year csv false) := by
  constructor
  · intro r hr
    simp only [get_storm_track, if_true, List.mem_map, List.mem_filter] at hr
    obtain ⟨r0, ⟨⟨-, hwind⟩, hpres⟩, rfl⟩ := hr
    exact ⟨by simpa using hwind, by simpa using hpres⟩
  · intro r hr hname hge hlt
    simp only [get_storm_track, Bool.false_eq_true, if_false, List.mem_map,
      List.mem_filter]
    exact ⟨r, ⟨⟨hr, by simp [hname]⟩, by simp [hge, hlt]⟩, rfl⟩

/-- Witness for C5: in a three-row CSV (units row, a complete row, a row
with blank WMO fields), the filtered run's sole surviving row has
non-blank fields, and the blank row is retained when the filter is off. -/
theorem get_storm_track_wmo_filter_witness :
    ((track_transform_row ⟨"IDA", toEpoch 2021 8 26 12 0 0, "30", "1006", 16, -78⟩).WMO_WIND
        ≠ " " ∧
      (track_transform_row ⟨"IDA", toEpoch 2021 8 26 12 0 0, "30", "1006", 16, -78⟩).WMO_PRES
        ≠ " ") ∧
      track_transform_row ⟨"IDA", toEpoch 2021 8 26 18 0 0, " ", " ", 17, -79⟩ ∈
        get_storm_track "IDA" 2021
          [⟨"u", 0, "w", "p", 0, 0⟩,
           ⟨"IDA", toEpoch 2021 8 26 12 0 0, "30", "1006", 16, -78⟩,
           ⟨"IDA", toEpoch 2021 8 26 18 0 0, " ", " ", 17, -79⟩] false :=
  ⟨(get_storm_track_wmo_filter "IDA" 2021
        [⟨"u", 0, "w", "p", 0, 0⟩,
         ⟨"IDA", toEpoch 2021 8 26 12 0 0, "30", "1006", 16, -78⟩,
         ⟨"IDA", toEpoch 2021 8 26 18 0 0, " ", " ", 17, -79⟩]).1
      (track_transform_row ⟨"IDA", toEpoch 2021 8 26 12 0 0, "30", "1006", 16, -78⟩)
      (by
        have h : get_storm_track "IDA" 2021
            [⟨"u", 0, "w", "p", 0, 0⟩,
             ⟨"IDA", toEpoch 2021 8 26 12 0 0, "30", "1006", 16, -78⟩,
             ⟨"IDA", toEpoch 2021 8 26 18 0 0, " ", " ", 17, -79⟩] true =
            [track_transform_row ⟨"IDA", toEpoch 2021 8 26 12 0 0, "30", "1006", 16, -78⟩] :=
          rfl
        rw [h]
        exact List.mem_singleton.mpr rfl),
   (get_storm_track_wmo_filter "IDA" 2021
        [⟨"u", 0, "w", "p", 0, 0⟩,
         ⟨"IDA", toEpoch 2021 8 26 12 0 0, "30", "1006", 16, -78⟩,
         ⟨"IDA", toEpoch 2021 8 26 18 0 0, " ", " ", 17, -79⟩]).2
      ⟨"IDA", toEpoch 2021 8 26 18 0 0, " ", " ", 17, -79⟩
      (by decide) rfl (by decide) (by decide)⟩

/-- C9: when no unit-row-stripped CSV row matches the given name and year,
`get_storm_track` returns the empty list (no error); `find_mirs_files` on
that empty track returns two empty lists, and `load_and_merge_mirs` on
those lists fails. -/
theorem get_storm_track_empty_downstream (name : String) (year : Int)
    (csv : List CsvRow) (fm : Bool) (dir : List (String × Granule))
    (W : Int) (req : Bool) (dir2 : String → Dataset) (keep rem : List String)
    (h : ∀ r ∈ csv.drop 1, r.NAME = name →
      ¬(yearStart year ≤ r.ISO_TIME ∧ r.ISO_TIME < yearStart (year + 1))) :
    get_storm_track name year csv fm = [] ∧
    find_mirs_files (get_storm_track name year csv fm) dir W req none = ([], []) ∧
    ∃ e, load_and_merge_mirs
        (find_mirs_files (get_storm_track name year csv fm) dir W req none).1
        (find_mirs_files (get_storm_track name year csv fm) dir W req none).2
        dir2 keep rem = .error e := by
  have hnil : ((csv.drop 1).filter (fun r => r.NAME == name)).filter
      (fun r => decide (yearStart year ≤ r.ISO_TIME ∧ r.ISO_TIME < yearStart (year + 1)))
      = [] := by
    rw [List.filter_eq_nil_iff]
    intro r hr
    rw [List.mem_filter] at hr
    simpa using h r hr.1 (by simpa using hr.2)
  have hempty : get_storm_track name year csv fm = [] := by
    simp only [get_storm_track, hnil]
    cases fm <;> simp
  have hfind : find_mirs_files ([] : List TrackRow) dir W req none = ([], []) := rfl
  rw [hempty, hfind]
  exact ⟨rfl, rfl, ⟨_, rfl⟩⟩

/-- Witness for C9: a CSV whose only data row is for storm SAM yields an
empty IDA/2021 track, empty file lists, and a merge error. -/
theorem get_storm_track_empty_downstream_witness :
    get_storm_track "IDA" 2021
        [⟨"u", 0, "w", "p", 0, 0⟩, ⟨"SAM", 0, "30", "1006", 16, -50⟩] true = [] ∧
      find_mirs_files
        (get_storm_track "IDA" 2021
          [⟨"u", 0, "w", "p", 0, 0⟩, ⟨"SAM", 0, "30", "1006", 16, -50⟩] true)
        [] 12 true none = ([], []) ∧
      ∃ e, load_and_merge_mirs
        (find_mirs_files
          (get_storm_track "IDA" 2021
            [⟨"u", 0, "w", "p", 0, 0⟩, ⟨"SAM", 0, "30", "1006", 16, -50⟩] true)
          [] 12 true none).1
        (find_mirs_files
          (get_storm_track "IDA" 2021
            [⟨"u", 0, "w", "p", 0, 0⟩, ⟨"SAM", 0, "30", "1006", 16, -50⟩] true)
          [] 12 true none).2
        (fun _ => ([] : Dataset)) SND_VARS_TO_KEEP IMG_VARS_TO_REMOVE = .error e :=
  get_storm_track_empty_downstream "IDA" 2021
    [⟨"u", 0, "w", "p", 0, 0⟩, ⟨"SAM", 0, "30", "1006", 16, -50⟩] true
    [] 12 true (fun _ => ([] : Dataset)) SND_VARS_TO_KEEP IMG_VARS_TO_REMOVE
    (by decide)

/-- C8: for every track, directory and option input, `find_mirs_files`
returns two duplicate-free, lexically sorted lists; a filename is in the
imagery (resp. sounding) list exactly when it is in the single
deduplicated matched set accumulated over all processed track points and
bears the corresponding filename prefix. -/
theorem find_mirs_files_sorted_dedup (track : List TrackRow)
    (dir : List (String × Granule)) (W : Int) (req : Bool)
    (idxs : Option (List Nat)) :
    ((find_mirs_files track dir W req idxs).1.Sorted (· ≤ ·) ∧
      (find_mirs_files track dir W req idxs).1.Nodup ∧
      ∀ f, f ∈ (find_mirs_files track dir W req idxs).1 ↔
        f ∈ mirs_matched_set track dir W req (idxs.getD (List.range track.length)) ∧
          strStartsWith f "NPR-MIRS-IMG" = true) ∧
    ((find_mirs_files track dir W req idxs).2.Sorted (· ≤ ·) ∧
      (find_mirs_files track dir W req idxs).2.Nodup ∧
      ∀ f, f ∈ (find_mirs_files track dir W req idxs).2 ↔
        f ∈ mirs_matched_set track dir W req (idxs.getD (List.range track.length)) ∧
          strStartsWith f "NPR-MIRS-SND" = true) := by
  simp only [find_mirs_files]
  refine ⟨⟨?_, ?_, fun f => ?_⟩, ⟨?_, ?_, fun f => ?_⟩⟩
  · exact (List.sorted_insertionSort file_lex_le _).imp
      (fun h => String.le_iff_toList_le.mpr h)
  · exact ((List.perm_insertionSort file_lex_le _).nodup_iff).mpr
      ((mirs_matched_set_nodup track dir W req _).filter _)
  · rw [List.mem_insertionSort, List.mem_filter]
  · exact (List.sorted_insertionSort file_lex_le _).imp
      (fun h => String.le_iff_toList_le.mpr h)
  · exact ((List.perm_insertionSort file_lex_le _).nodup_iff).mpr
      ((mirs_matched_set_nodup track dir W req _).filter _)
  · rw [List.mem_insertionSort, List.mem_filter]

/-- Witness for C8: in a one-point track and a two-granule directory, the
IMG-named matching granule lands in the imagery list via the
matched-set/prefix characterization. -/
theorem find_mirs_files_sorted_dedup_witness :
    "NPR-MIRS-IMG_a.nc" ∈
      (find_mirs_files [⟨"IDA", 0, "30", "1006", 10, 310, -50⟩]
        [("NPR-MIRS-IMG_a.nc", ⟨-100, 100, -80, fun _ _ => true⟩),
         ("NPR-MIRS-SND_b.nc", ⟨-100, 100, -80, fun _ _ => true⟩)] 12 true none).1 :=
  ((find_mirs_files_sorted_dedup [⟨"IDA", 0, "30", "1006", 10, 310, -50⟩]
      [("NPR-MIRS-IMG_a.nc", ⟨-100, 100, -80, fun _ _ => true⟩),
       ("NPR-MIRS-SND_b.nc", ⟨-100, 100, -80, fun _ _ => true⟩)] 12 true
      none).1.2.2 "NPR-MIRS-IMG_a.nc").mpr ⟨by decide, rfl⟩

/-- C3: every output `build_output_dataset` builds carries a name
attribute equal to the storm name, a start-time attribute equal to the
first selected track record's timestamp, and bounding-box attributes
equal to the min/max latitude/longitude of the track records selected by
storm name and year, rounded to 2 decimals; the attributes are unchanged
under any substitution of the merged granule data. -/
theorem build_output_dataset_attrs (ds_img ds_snd : Dataset)
    (ds_ibt : List IbtracsStorm) (nm : String) (yr : Int) (out : OutputDataset)
    (h : build_output_dataset ds_img ds_snd ds_ibt nm yr = some out) :
    out.TC_name = nm ∧
    (∃ s, (ds_ibt.filter (fun t => t.name == nm)).filter (fun t => t.season == yr) = [s] ∧
      s.iso_time.head? = some out.TC_time_start ∧
      s.lat.min?.map round2 = some out.TC_minimum_lat ∧
      s.lon.min?.map round2 = some out.TC_minimum_lon ∧
      s.lat.max?.map round2 = some out.TC_maximum_lat ∧
      s.lon.max?.map round2 = some out.TC_maximum_lon) ∧
    (∀ img2 snd2, build_output_dataset img2 snd2 ds_ibt nm yr =
      some { out with img := img2, snd := snd2 }) := by
  rw [build_output_dataset] at h
  split at h
  next storm heq =>
    split at h
    next t0 lam lom laM loM h1 h2 h3 h4 h5 =>
      rw [Option.some_inj] at h
      subst h
      refine ⟨rfl, ⟨storm, heq, by rw [h1], by rw [h2]; rfl, by rw [h3]; rfl,
        by rw [h4]; rfl, by rw [h5]; rfl⟩, ?_⟩
      intro img2 snd2
      rw [build_output_dataset, heq]
      simp [h1, h2, h3, h4, h5]
    next => exact absurd h (by simp)
  next => exact absurd h (by simp)

/-- Witness for C3: on a single matching storm with two records, the
output's attributes are the first timestamp and the rounded track bounding
box, for any granule data. -/
theorem build_output_dataset_attrs_witness :
    outW.TC_name = "IDA" ∧
    (∃ s, (([stormW] : List IbtracsStorm).filter (fun t => t.name == "IDA")).filter
        (fun t => t.season == 2021) = [s] ∧
      s.iso_time.head? = some outW.TC_time_start ∧
      s.lat.min?.map round2 = some outW.TC_minimum_lat ∧
      s.lon.min?.map round2 = some outW.TC_minimum_lon ∧
      s.lat.max?.map round2 = some outW.TC_maximum_lat ∧
      s.lon.max?.map round2 = some outW.TC_maximum_lon) ∧
    (∀ img2 snd2, build_output_dataset img2 snd2 [stormW] "IDA" 2021 =
      some { outW with img := img2, snd := snd2 }) :=
  build_output_dataset_attrs [] [] [stormW] "IDA" 2021 outW rfl

/-- C10: in the CLI entry point, a storm year of 2021 forces the WMO
filter off — `get_storm_track` is called with the filter disabled even
when the flag is passed as enabled — while any other year passes the flag
through unchanged; the flag's parser default is on. -/
theorem cli_year_2021_disables_wmo_filter (args : CliArgs) (csv : List CsvRow) :
    (args.year = 2021 →
      main_filter_wmo args = false ∧
      main_track args csv = get_storm_track args.name.toUpper args.year csv false) ∧
    (args.year ≠ 2021 → main_filter_wmo args = args.filter_missing_wmo) ∧
    (∀ n y, ({ name := n, year := y } : CliArgs).filter_missing_wmo = true) := by
  refine ⟨?_, ?_, fun n y => rfl⟩
  · intro hy
    have hf : main_filter_wmo args = false := by
      simp [main_filter_wmo, hy]
    refine ⟨hf, ?_⟩
    unfold main_track
    rw [hf]
  · intro hy
    simp [main_filter_wmo, hy]

/-- Witness for C10: with year 2021 and the flag explicitly enabled, the
effective filter is off and the track call uses the disabled filter. -/
theorem cli_year_2021_disables_wmo_filter_witness :
    main_filter_wmo { name := "ida", year := 2021, filter_missing_wmo := true } = false ∧
      main_track { name := "ida", year := 2021, filter_missing_wmo := true } [] =
        get_storm_track "ida".toUpper 2021 [] false :=
  (cli_year_2021_disables_wmo_filter
    { name := "ida", year := 2021, filter_missing_wmo := true } []).1 rfl

end Tcmirs
